import Mathlib

/-
  Verification development for the homelab_manager repository.

  The definitions below are a shallow embedding of the Python sources:
    - src/backend/core/config.py        (load_config, update_config, _deep_update)
    - src/backend/integrations/netbox.py (NetBoxManager.allocate_ips, _rollback_allocations)
    - src/backend/core/clab_runner.py   (ClabRunner.bootstrap_lab)
    - src/backend/core/lab_manager.py   (LabManager operations over the state document)
    - src/backend/app.py and src/backend/api/*.py (application factory and blueprints)

  Python dicts are embedded as insertion-ordered association lists
  (List (String × α)); setting an existing key keeps its position,
  setting a new key appends, matching CPython dict semantics.
  External collaborators (git, clab-tools, the NetBox REST API, the
  filesystem) are parameters describing the outcome of each call.
-/

/-- Dict lookup: first binding of the key (association lists built from
Python dicts have unique keys). -/
def lookupA {α : Type} : List (String × α) → String → Option α
  | [], _ => none
  | (k, v) :: rest, key => if k = key then some v else lookupA rest key

/-- Dict assignment `d[key] = val`: replace in place if present, else append. -/
def insertA {α : Type} : List (String × α) → String → α → List (String × α)
  | [], key, val => [(key, val)]
  | (k, v) :: rest, key, val =>
      if k = key then (k, val) :: rest else (k, v) :: insertA rest key val

/-- Dict deletion `del d[key]`. -/
def eraseA {α : Type} : List (String × α) → String → List (String × α)
  | [], _ => []
  | (k, v) :: rest, key => if k = key then rest else (k, v) :: eraseA rest key

/-- In-place update of the value stored at a key (`d[key]["f"] = ...`). -/
def modifyA {α : Type} : List (String × α) → String → (α → α) → List (String × α)
  | [], _, _ => []
  | (k, v) :: rest, key, f =>
      if k = key then (k, f v) :: rest else (k, v) :: modifyA rest key f

/-- Keys of an association list, in order. -/
def keysOf {α : Type} (l : List (String × α)) : List String := l.map (fun p => p.1)

/-- YAML/JSON values as parsed by yaml.safe_load / json.load: scalars,
mappings and sequences. -/
inductive YVal where
  | s (v : String)
  | b (v : Bool)
  | n (v : Int)
  | obj (fields : List (String × YVal))
  | arr (items : List YVal)

/-- Python truthiness of a YAML value (`if value:`). -/
def yTruthy : YVal → Bool
  | YVal.s v => v ≠ ""
  | YVal.b v => v
  | YVal.n v => v ≠ 0
  | YVal.obj fields => !fields.isEmpty
  | YVal.arr items => !items.isEmpty

/-- config.py `_deep_update(base, updates)`: for each key of `updates`, if the
new value is a mapping and the key holds a mapping in `base`, merge
recursively; otherwise the new value replaces wholesale. -/
def deepUpdateF : List (String × YVal) → List (String × YVal) → List (String × YVal)
  | base, [] => base
  | base, (k, YVal.obj uo) :: rest =>
      (match lookupA base k with
       | some (YVal.obj bo) =>
           deepUpdateF (insertA base k (YVal.obj (deepUpdateF bo uo))) rest
       | _ => deepUpdateF (insertA base k (YVal.obj uo)) rest)
  | base, (k, v) :: rest => deepUpdateF (insertA base k v) rest
termination_by _ u => sizeOf u
decreasing_by all_goals (simp_wf; try omega)

/-- The default configuration document written by config.py `load_config`
on first run (paths are the fixed per-user locations under ~/.labctl). -/
def defaultConfig : YVal :=
  YVal.obj
    [ ("repos_dir", YVal.s "~/.labctl/repos"),
      ("logs_dir", YVal.s "~/.labctl/logs"),
      ("state_file", YVal.s "~/.labctl/state.json"),
      ("clab_tools_cmd", YVal.s "clab-tools"),
      ("git_cmd", YVal.s "git"),
      ("clab_tools_password", YVal.s ""),
      ("remote_credentials", YVal.obj
        [ ("ssh_password", YVal.s ""), ("sudo_password", YVal.s "") ]),
      ("monitoring", YVal.obj
        [ ("prometheus", YVal.s "http://localhost:9090"),
          ("grafana", YVal.s "http://localhost:3000") ]),
      ("netbox", YVal.obj
        [ ("enabled", YVal.b false), ("url", YVal.s ""), ("token", YVal.s ""),
          ("default_prefix", YVal.s "10.100.100.0/24") ]) ]

/-- The on-disk configuration file: `none` models an absent file; parsing is
modelled as the identity (the file stores the document). -/
structure ConfigFile where
  contents : Option YVal

/-- config.py `load_config`: absent file ⇒ write and return the default
document; present file ⇒ parse and return it verbatim. -/
def load_config (fs : ConfigFile) : YVal × ConfigFile :=
  match fs.contents with
  | none => (defaultConfig, { contents := some defaultConfig })
  | some v => (v, fs)

/-- config.py `update_config`: load the current document, deep-merge the
partial update into it, write the result back, return the merged document.
Returns `none` when the loaded document is not a mapping (the source would
raise while indexing into it). -/
def update_config (updates : List (String × YVal)) (fs : ConfigFile) :
    Option (YVal × ConfigFile) :=
  let loaded := load_config fs
  match loaded.1 with
  | YVal.obj bf =>
      let merged := YVal.obj (deepUpdateF bf updates)
      some (merged, { contents := some merged })
  | _ => none

/-
  IP-Management Integration: netbox.py `NetBoxManager.allocate_ips`.

  The external IPAM system is abstracted by: whether the integration is
  enabled and the API handle could be established, whether the configured
  prefix exists, the list of currently-available addresses (with mask,
  e.g. "10.100.100.5/24"), and which creation calls throw (by index).
  The trace of create/delete calls issued against the external system is
  returned alongside the node-to-IP mapping.
-/

/-- Behavior of the external IPAM system for one `allocate_ips` call. -/
structure NbEnv where
  enabled : Bool
  apiOk : Bool
  prefixFound : Bool
  availableIps : List String
  createFails : Nat → Bool

/-- One mutating call issued against the external IPAM system. -/
inductive NbIpEvent where
  | create (address : String)
  | delete (address : String)
deriving DecidableEq

/-- `str(ipaddress.ip_interface(addr).ip)`: the bare address with the mask
stripped. -/
def stripMask (s : String) : String := s.takeWhile (fun c => c ≠ '/')

/-- The per-node allocation loop of `allocate_ips`: for each node in order,
create one IP record from `available[i]`; on the first creation that throws,
delete every record created in this call (in creation order) and return the
empty mapping. -/
def allocLoop (available : List String) (createFails : Nat → Bool) :
    List String → Nat → List (String × String) → List String → List NbIpEvent →
    List (String × String) × List NbIpEvent
  | [], _i, assignments, _created, events => (assignments, events)
  | node :: rest, i, assignments, created, events =>
      if createFails i then
        ([], events ++ created.map NbIpEvent.delete)
      else
        let addr := (available.get? i).getD ""
        allocLoop available createFails rest (i + 1)
          (insertA assignments node (stripMask addr))
          (created ++ [addr])
          (events ++ [NbIpEvent.create addr])

/-- netbox.py `allocate_ips(lab_id, nodes)`: disabled/unavailable ⇒ empty;
prefix not found ⇒ empty; fewer available addresses than nodes ⇒ empty with
no creation; otherwise allocate one address per node with rollback on any
single failure. -/
def allocate_ips (env : NbEnv) (nodes : List String) :
    List (String × String) × List NbIpEvent :=
  if !env.enabled || !env.apiOk then ([], [])
  else if !env.prefixFound then ([], [])
  else if env.availableIps.length < nodes.length then ([], [])
  else allocLoop env.availableIps env.createFails nodes 0 [] [] []

/-
  Deployment Executor: clab_runner.py `ClabRunner.bootstrap_lab`.

  The step-3 bootstrap subprocess is abstracted by the wall-clock seconds it
  keeps its stdout stream open (the `for line in process.stdout` loop blocks
  for that long, with no timeout), the further seconds from stdout EOF until
  process exit (bounded by `process.wait(timeout=90)`), and its exit code.
-/

/-- Presence of the three required provisioning inputs under the repository
path. -/
structure ClabFiles where
  configYaml : Bool
  nodesCsv : Bool
  connectionsCsv : Bool

/-- Timing/exit behavior of the `lab bootstrap` subprocess. -/
structure BootProc where
  stdoutSeconds : Nat
  exitDelay : Nat
  exitCode : Int

/-- The dictionary half of `bootstrap_lab`'s `(bool, dict)` return value. -/
structure BootResult where
  ok : Bool
  error : Option String
  timeoutField : Option Nat
  exitCodeField : Option Int
  deploymentId : Option String
  logFile : Option String
  message : Option String
deriving DecidableEq

/-- Observable outcome of one `bootstrap_lab` call: the returned result, how
many subprocesses were spawned, whether the bootstrap subprocess was killed,
and its observed wall-clock runtime in seconds. -/
structure BootOutcome where
  result : BootResult
  subprocessCalls : Nat
  killed : Bool
  bootstrapRuntime : Nat
deriving DecidableEq

/-- The missing-name list built by the validation loop at the top of
`bootstrap_lab`, in the source's fixed order. -/
def missingFilesList (files : ClabFiles) : List String :=
  (if files.configYaml then [] else ["config.yaml"]) ++
  (if files.nodesCsv then [] else ["nodes.csv"]) ++
  (if files.connectionsCsv then [] else ["connections.csv"])

/-- clab_runner.py `bootstrap_lab(lab_id, repo_path, deployment_id)`:
validate required files (fatal, no subprocess); run `lab create` and
`lab switch` (non-fatal); stream the `lab bootstrap` subprocess's output
until its stdout closes, then wait at most 90 further seconds for exit,
killing the process and reporting a timeout if that wait expires. -/
def bootstrap_lab (labId : String) (files : ClabFiles) (proc : BootProc)
    (deploymentId : String) : BootOutcome :=
  let missing := missingFilesList files
  if !missing.isEmpty then
    { result := { ok := false,
                  error := some ("Missing required files: " ++ String.intercalate ", " missing),
                  timeoutField := none, exitCodeField := none,
                  deploymentId := none, logFile := none, message := none },
      subprocessCalls := 0, killed := false, bootstrapRuntime := 0 }
  else
    let logFile := deploymentId ++ ".log"
    if 90 < proc.exitDelay then
      { result := { ok := false, error := some "Bootstrap timed out",
                    timeoutField := some 90, exitCodeField := none,
                    deploymentId := none, logFile := some logFile, message := none },
        subprocessCalls := 3, killed := true,
        bootstrapRuntime := proc.stdoutSeconds + 90 }
    else if proc.exitCode = 0 then
      { result := { ok := true, error := none, timeoutField := none,
                    exitCodeField := none, deploymentId := some deploymentId,
                    logFile := some logFile,
                    message := some ("Lab " ++ labId ++ " deployed successfully") },
        subprocessCalls := 3, killed := false,
        bootstrapRuntime := proc.stdoutSeconds + proc.exitDelay }
    else
      { result := { ok := false, error := some "Bootstrap failed",
                    timeoutField := none, exitCodeField := some proc.exitCode,
                    deploymentId := none, logFile := some logFile, message := none },
        subprocessCalls := 3, killed := false,
        bootstrapRuntime := proc.stdoutSeconds + proc.exitDelay }

/-
  Lab Orchestrator: lab_manager.py `LabManager`.

  The state document (§3.2 of the state file) is the pair of `repos` and
  `deployments` mappings.  Each operation takes the current state plus a
  record of what the external collaborators (git, clab-tools, NetBox, the
  filesystem) would do, and returns the operation's result together with the
  successor state (the source persists the full document after every
  mutation) and the NetBox calls it issued.
-/

/-- A Repository Record in the state document. -/
structure RepoRecord where
  path : String
  url : String
  metadata : List (String × YVal)
  added : String

/-- A Deployment Record in the state document. -/
structure DepRecord where
  lab_id : String
  version : String
  deployed_at : String
  log_file : String
  status : String
  netbox_ips_allocated : Bool
  ip_assignments : List (String × String)
  destroyed_at : Option String

/-- The state document: repos and deployments mappings. -/
structure ManagerState where
  repos : List (String × RepoRecord)
  deployments : List (String × DepRecord)

/-- The state loaded when the state file is absent (`_load_state`). -/
def initialState : ManagerState := { repos := [], deployments := [] }

/-- Structured success/error result returned by the orchestrator's
operations. -/
inductive OpResult where
  | ok (message : String)
  | err (error : String)
deriving DecidableEq

/-- Whether a Python call returned a value or raised an exception that
escapes the operation's public boundary. -/
inductive PyOutcome (α : Type) where
  | ret (v : α)
  | exc (msg : String)
deriving DecidableEq

/-- True when the call returned a structured value rather than raising. -/
def isStructuredOutcome {α : Type} : PyOutcome α → Bool
  | PyOutcome.ret _ => true
  | PyOutcome.exc _ => false

/-- Outcomes of the external collaborators during one `add_repo` call. -/
structure AddEnv where
  gitOk : Bool
  gitErr : String
  metadataPresent : Bool
  metadata : List (String × YVal)
  addedAt : String
  reposDir : String

/-- lab_manager.py `add_repo(repo_url, name)`: derive the lab id from the
URL's last path segment with ".git" stripped when no name is given;
clone-or-pull; require lab-metadata.yaml; insert the Repository Record. -/
def add_repo (st : ManagerState) (repoUrl : String) (name : Option String)
    (env : AddEnv) : OpResult × ManagerState :=
  let labId :=
    match name with
    | some n => n
    | none => (((repoUrl.splitOn "/").getLast?).getD repoUrl).replace ".git" ""
  if !env.gitOk then (OpResult.err env.gitErr, st)
  else if !env.metadataPresent then
    (OpResult.err ("lab-metadata.yaml not found in " ++ labId), st)
  else
    let record : RepoRecord :=
      { path := env.reposDir ++ "/" ++ labId, url := repoUrl,
        metadata := env.metadata, added := env.addedAt }
    (OpResult.ok labId, { st with repos := insertA st.repos labId record })

/-- Outcomes of the external collaborators during one `update_repo` call:
the git pull's result and the contents of lab-metadata.yaml after the pull
(`none` when the file is absent). -/
structure UpdateEnv where
  pullOk : Bool
  pullErr : String
  metadataFile : Option (List (String × YVal))

/-- lab_manager.py `update_repo(lab_id)`: NotFound if unregistered; on pull
failure return it; then `open(metadata_file)` with NO existence check — an
absent lab-metadata.yaml raises FileNotFoundError across the public
boundary (unlike `add_repo`, which checks first). -/
def update_repo (st : ManagerState) (labId : String) (env : UpdateEnv) :
    PyOutcome OpResult × ManagerState :=
  match lookupA st.repos labId with
  | none => (PyOutcome.ret (OpResult.err ("Lab " ++ labId ++ " not found")), st)
  | some repo =>
      if !env.pullOk then (PyOutcome.ret (OpResult.err env.pullErr), st)
      else
        match env.metadataFile with
        | none =>
            (PyOutcome.exc "FileNotFoundError: lab-metadata.yaml", st)
        | some m =>
            (PyOutcome.ret (OpResult.ok "Repository updated"),
              { st with repos := insertA st.repos labId { repo with metadata := m } })

/-- The first Deployment Record for this lab with status "active", in dict
iteration order (the loop in `remove_repo` / `destroy_lab`). -/
def findActiveDep (deployments : List (String × DepRecord)) (labId : String) :
    Option String :=
  (deployments.find? (fun p => p.2.lab_id == labId && p.2.status == "active")).map
    (fun p => p.1)

/-- lab_manager.py `remove_repo(lab_id)`: NotFound if unregistered; Conflict
if any deployment of this lab is active; otherwise delete the Repository
Record and persist. -/
def remove_repo (st : ManagerState) (labId : String) : OpResult × ManagerState :=
  if (lookupA st.repos labId).isNone then
    (OpResult.err ("Lab " ++ labId ++ " not found"), st)
  else
    match findActiveDep st.deployments labId with
    | some depId =>
        (OpResult.err ("Cannot remove lab with active deployment: " ++ depId), st)
    | none =>
        (OpResult.ok ("Lab " ++ labId ++ " removed"),
          { st with repos := eraseA st.repos labId })

/-- NetBox calls the orchestrator issues during deploy/destroy. -/
inductive NbEvent where
  | releaseIps (labId : String)
  | registerDevices (labId : String)
deriving DecidableEq

/-- The check `if version and version != "latest"` in `_deploy_lab`. -/
def versionRequested : Option String → Bool
  | some v => v ≠ "" && v ≠ "latest"
  | none => false

/-- The version string stored in the Deployment Record
(`version or "latest"`). -/
def versionStored : Option String → String
  | some v => if v = "" then "latest" else v
  | none => "latest"

/-- Outcomes of the external collaborators during one `_deploy_lab` call. -/
structure DeployEnv where
  checkoutOk : Bool
  checkoutErr : String
  netboxSome : Bool
  netboxEnabled : Bool
  nodesCsvExists : Bool
  nodeNames : List String
  allocResult : List (String × String)
  updateCsvOk : Bool
  bootstrapOk : Bool
  bootstrapLogFile : String
  bootstrapMessage : String
  bootstrapErr : String
  timestamp : String
  deployedAt : String

/-- lab_manager.py `_deploy_lab(lab_id, version, allocate_ips)`: the
synchronous deployment sequence.  NotFound if unregistered; optional
checkout; optional NetBox allocation with CSV rewrite (releasing the
just-allocated IPs on rewrite failure); bootstrap; on success insert an
active Deployment Record and persist; on bootstrap failure release the
allocated IPs and leave the state document unchanged. -/
def deploy_lab (st : ManagerState) (labId : String) (version : Option String)
    (allocateIps : Bool) (env : DeployEnv) :
    OpResult × ManagerState × List NbEvent :=
  if (lookupA st.repos labId).isNone then
    (OpResult.err ("Lab " ++ labId ++ " not found"), st, [])
  else if versionRequested version && !env.checkoutOk then
    (OpResult.err env.checkoutErr, st, [])
  else
    let allocBranch := allocateIps && env.netboxSome && env.netboxEnabled
    if allocBranch && !env.nodesCsvExists then
      (OpResult.err "nodes.csv not found", st, [])
    else
      let doAlloc := allocBranch && !env.nodeNames.isEmpty
      if doAlloc && env.allocResult.isEmpty then
        (OpResult.err "Failed to allocate IPs from NetBox", st, [])
      else if doAlloc && !env.updateCsvOk then
        (OpResult.err "Failed to update nodes.csv with IPs", st,
          [NbEvent.releaseIps labId])
      else
        let assignments := if doAlloc then env.allocResult else []
        let deploymentId := labId ++ "_" ++ env.timestamp
        if env.bootstrapOk then
          let events :=
            if !assignments.isEmpty && env.netboxSome then
              [NbEvent.registerDevices labId]
            else []
          let depRecord : DepRecord :=
            { lab_id := labId, version := versionStored version,
              deployed_at := env.deployedAt,
              log_file := env.bootstrapLogFile, status := "active",
              netbox_ips_allocated := !assignments.isEmpty,
              ip_assignments := assignments, destroyed_at := none }
          (OpResult.ok env.bootstrapMessage,
            { st with deployments := insertA st.deployments deploymentId depRecord },
            events)
        else
          let events :=
            if !assignments.isEmpty && env.netboxSome then
              [NbEvent.releaseIps labId]
            else []
          (OpResult.err env.bootstrapErr, st, events)

/-- Outcomes of the external collaborators during one `destroy_lab` call. -/
structure DestroyEnv where
  teardownOk : Bool
  teardownErr : String
  destroyedAt : String

/-- The in-place Deployment Record update performed by `destroy_lab` on
teardown success: set status to "destroyed" and stamp destroyed_at. -/
def markDestroyedAt (t : String) : DepRecord → DepRecord := fun d =>
  { d with status := "destroyed", destroyed_at := some t }

/-- lab_manager.py `destroy_lab(lab_id)`: NotFound if no active deployment;
then `state["repos"][lab_id]` (a KeyError when the lab is unregistered);
teardown; on success mark the Deployment Record destroyed and persist
(the best-effort NetBox release/unregister only logs and does not change
the state document). -/
def destroy_lab (st : ManagerState) (labId : String) (env : DestroyEnv) :
    PyOutcome OpResult × ManagerState :=
  match findActiveDep st.deployments labId with
  | none =>
      (PyOutcome.ret (OpResult.err ("No active deployment found for " ++ labId)), st)
  | some depId =>
      match lookupA st.repos labId with
      | none => (PyOutcome.exc "KeyError", st)
      | some _repo =>
          if env.teardownOk then
            (PyOutcome.ret (OpResult.ok ("Lab " ++ labId ++ " destroyed successfully")),
              { st with deployments :=
                  modifyA st.deployments depId (markDestroyedAt env.destroyedAt) })
          else (PyOutcome.ret (OpResult.err env.teardownErr), st)

/-- One row of the `get_status` projection. -/
structure StatusEntry where
  deployment_id : String
  lab_id : String
  lab_name : YVal
  version : String
  deployed_at : String

/-- The projection of one active Deployment Record: indexes `repos` by the
deployment's lab id (`none` models the KeyError raised when that lab is not
registered). -/
def statusEntry (st : ManagerState) (p : String × DepRecord) : Option StatusEntry :=
  (lookupA st.repos p.2.lab_id).map (fun r =>
    { deployment_id := p.1, lab_id := p.2.lab_id,
      lab_name := (lookupA r.metadata "name").getD (YVal.s p.2.lab_id),
      version := p.2.version, deployed_at := p.2.deployed_at })

/-- Sequencing of a fallible projection over a list: `none` as soon as one
element's projection raises. -/
def optionTraverse {α β : Type} (f : α → Option β) : List α → Option (List β)
  | [] => some []
  | x :: xs =>
      match f x, optionTraverse f xs with
      | some y, some ys => some (y :: ys)
      | _, _ => none

/-- lab_manager.py `get_status()`: project every active Deployment Record,
plus the total count; `none` when any projection raises. -/
def get_status (st : ManagerState) : Option (List StatusEntry × Nat) :=
  (optionTraverse (statusEntry st)
      (st.deployments.filter (fun p => p.2.status == "active"))).map
    (fun entries => (entries, entries.length))

/-- One atomic application of a state-mutating orchestrator operation, with
arbitrary collaborator outcomes. -/
inductive Step : ManagerState → ManagerState → Prop where
  | add (st : ManagerState) (repoUrl : String) (name : Option String)
      (env : AddEnv) : Step st (add_repo st repoUrl name env).2
  | update (st : ManagerState) (labId : String) (env : UpdateEnv) :
      Step st (update_repo st labId env).2
  | remove (st : ManagerState) (labId : String) :
      Step st (remove_repo st labId).2
  | deploy (st : ManagerState) (labId : String) (version : Option String)
      (allocateIps : Bool) (env : DeployEnv) :
      Step st (deploy_lab st labId version allocateIps env).2.1
  | destroy (st : ManagerState) (labId : String) (env : DestroyEnv) :
      Step st (destroy_lab st labId env).2

/-- States reachable from the empty initial state document via the
orchestrator's operations. -/
inductive Reachable : ManagerState → Prop where
  | init : Reachable initialState
  | step {st st' : ManagerState} : Reachable st → Step st st' → Reachable st'

/-- Every active Deployment Record's lab id is a key of the repos mapping. -/
def ActiveOk (st : ManagerState) : Prop :=
  ∀ p ∈ st.deployments, p.2.status = "active" →
    (lookupA st.repos p.2.lab_id).isSome = true

/-
  HTTP API layer: app.py `create_app` and the blueprints under api/.

  Each blueprint module declares `lab_manager: LabManager = None` at module
  level ("This will be set by the main app") and its handlers read that
  module global.  `create_app` builds one LabManager, stores it as
  `app.lab_manager`, and registers the blueprints — it never assigns the
  module globals.  The settings blueprint (api/settings.py) is not in the
  registration list at all.
-/

/-- The flattened repository summary built by lab_manager.py `list_repos`,
with its per-field defaults for missing metadata. -/
structure RepoSummary where
  id : String
  name : YVal
  version : YVal
  category : YVal
  vendor : YVal
  difficulty : YVal
  description : YVal
  requirements : YVal
  tags : YVal
  path : String
  url : String

/-- lab_manager.py `list_repos()`: project every Repository Record. -/
def list_repos (st : ManagerState) : List RepoSummary :=
  st.repos.map (fun p =>
    { id := p.1,
      name := (lookupA p.2.metadata "name").getD (YVal.s p.1),
      version := (lookupA p.2.metadata "version").getD (YVal.s "unknown"),
      category := (lookupA p.2.metadata "category").getD (YVal.s "uncategorized"),
      vendor := (lookupA p.2.metadata "vendor").getD (YVal.s "unknown"),
      difficulty := (lookupA p.2.metadata "difficulty").getD (YVal.s "unknown"),
      description := (lookupA p.2.metadata "description").getD (YVal.obj []),
      requirements := (lookupA p.2.metadata "requirements").getD (YVal.obj []),
      tags := (lookupA p.2.metadata "tags").getD (YVal.arr []),
      path := p.2.path, url := p.2.url })

/-- Routes declared by api/repos.py (`repos_bp`). -/
def repos_bp_routes : List (String × String) :=
  [("GET", "/api/repos"), ("POST", "/api/repos"),
   ("PUT", "/api/repos/<lab_id>"), ("DELETE", "/api/repos/<lab_id>")]

/-- Routes declared by api/labs.py (`labs_bp`). -/
def labs_bp_routes : List (String × String) :=
  [("POST", "/api/labs/<lab_id>/deploy"), ("POST", "/api/labs/<lab_id>/destroy"),
   ("GET", "/api/deployments"), ("GET", "/api/labs/<lab_id>/scenarios"),
   ("POST", "/api/labs/<lab_id>/scenarios/<scenario>"), ("GET", "/api/logs/<lab_id>")]

/-- Routes declared by api/tasks.py (`tasks_bp`). -/
def tasks_bp_routes : List (String × String) :=
  [("GET", "/api/tasks/<task_id>")]

/-- Routes declared by api/health.py (`health_bp`). -/
def health_bp_routes : List (String × String) :=
  [("GET", "/api/health"), ("GET", "/api/config")]

/-- Routes declared by api/settings.py (`settings_bp`). -/
def settings_bp_routes : List (String × String) :=
  [("GET", "/api/config/settings"), ("POST", "/api/config/settings")]

/-- The Flask application built by the factory: its registered routes, the
orchestrator instance attached as `app.lab_manager`, and the value of the
module-level `lab_manager` global read by the repos blueprint's handlers. -/
structure FlaskApp where
  routes : List (String × String)
  appLabManager : Option ManagerState
  reposModuleManager : Option ManagerState

/-- The initial value of `lab_manager` in api/repos.py
(`lab_manager: LabManager = None`). -/
def reposModuleInitial : Option ManagerState := none

/-- The routes registered by `create_app`: the blueprints in its
registration list `[repos_bp, labs_bp, tasks_bp, health_bp]` (the settings
blueprint is absent from that list) plus the two directly declared
routes. -/
def createAppRoutes : List (String × String) :=
  [("GET", "/debug/paths"), ("GET", "/")] ++
  repos_bp_routes ++ labs_bp_routes ++ tasks_bp_routes ++ health_bp_routes

/-- app.py `create_app(test_config)`: build the orchestrator, attach it to
the app, and register the blueprints.  Nothing assigns the blueprint
modules' `lab_manager` globals. -/
def create_app (managerInstance : ManagerState) : FlaskApp :=
  { routes := createAppRoutes,
    appLabManager := some managerInstance,
    reposModuleManager := reposModuleInitial }

/-- Outcome of a GET request to /api/repos: 200 with the summary list, 500
from an uncaught exception in the handler, or 404 when no such route is
registered. -/
inductive ReposGetResponse where
  | ok200 (body : List RepoSummary)
  | internalError500 (exc : String)
  | notFound404

/-- Dispatch of `GET /api/repos`: route lookup, then api/repos.py
`list_repos()`, which calls `.list_repos()` on the module-global
`lab_manager`. -/
def handle_get_repos (app : FlaskApp) : ReposGetResponse :=
  if app.routes.contains ("GET", "/api/repos") then
    match app.reposModuleManager with
    | none =>
        ReposGetResponse.internalError500
          "AttributeError: NoneType object has no attribute list_repos"
    | some st => ReposGetResponse.ok200 (list_repos st)
  else ReposGetResponse.notFound404

/-- api/settings.py `_mask_passwords` helper for one scalar field:
`if key in config and config[key]:` replace with "****". -/
def maskField (c : List (String × YVal)) (key : String) : List (String × YVal) :=
  match lookupA c key with
  | some v => if yTruthy v then insertA c key (YVal.s "****") else c
  | none => c

/-- api/settings.py `_mask_passwords`, remote_credentials block: mask
ssh_password and sudo_password inside the nested mapping when truthy. -/
def maskRemoteCreds (c : List (String × YVal)) : List (String × YVal) :=
  match lookupA c "remote_credentials" with
  | some (YVal.obj creds) =>
      insertA c "remote_credentials"
        (YVal.obj (maskField (maskField creds "ssh_password") "sudo_password"))
  | _ => c

/-- api/settings.py `_mask_passwords`, netbox block: mask the token when
present and truthy. -/
def maskNetboxToken (c : List (String × YVal)) : List (String × YVal) :=
  match lookupA c "netbox" with
  | some (YVal.obj nb) =>
      match lookupA nb "token" with
      | some t =>
          if yTruthy t then insertA c "netbox" (YVal.obj (insertA nb "token" (YVal.s "****")))
          else c
      | none => c
  | _ => c

/-- api/settings.py `_mask_passwords(config)`: mask clab_tools_password,
the two remote credentials, and the netbox token, in the source's order. -/
def mask_passwords (c : List (String × YVal)) : List (String × YVal) :=
  maskNetboxToken (maskRemoteCreds (maskField c "clab_tools_password"))

/-- Outcome of a GET request to /api/config/settings. -/
inductive SettingsGetResponse where
  | ok200 (body : List (String × YVal))
  | notFound404

/-- Dispatch of `GET /api/config/settings`: route lookup, then
api/settings.py `get_settings()` (load the configuration and return it with
credentials masked). -/
def handle_get_settings (app : FlaskApp) (fileConfig : List (String × YVal)) :
    SettingsGetResponse :=
  if app.routes.contains ("GET", "/api/config/settings") then
    SettingsGetResponse.ok200 (mask_passwords fileConfig)
  else SettingsGetResponse.notFound404

/-- The value `_deep_update` leaves at one key of the merged document:
nested mappings merge recursively, anything else replaces wholesale. -/
def mergedValue (bv : Option YVal) (uv : YVal) : YVal :=
  match uv, bv with
  | YVal.obj uo, some (YVal.obj bo) => YVal.obj (deepUpdateF bo uo)
  | _, _ => uv

/-
  Concrete example data used to instantiate the theorems below on closed
  inputs.
-/

/-- Example parsed lab-metadata document. -/
def exMetadata : List (String × YVal) := [("name", YVal.s "Demo Lab")]

/-- Example Repository Record. -/
def exRepoRecord : RepoRecord :=
  { path := "/root/.labctl/repos/demo", url := "https://example.com/demo.git",
    metadata := exMetadata, added := "2025-01-01T00:00:00" }

/-- Example active Deployment Record for lab "demo". -/
def exActiveDep : DepRecord :=
  { lab_id := "demo", version := "latest", deployed_at := "2025-01-02T00:00:00",
    log_file := "/root/.labctl/logs/demo_1.log", status := "active",
    netbox_ips_allocated := false, ip_assignments := [], destroyed_at := none }

/-- The same Deployment Record after a successful destroy. -/
def exDestroyedDep : DepRecord :=
  { exActiveDep with
    status := "destroyed"
    destroyed_at := some "2025-01-03T00:00:00" }

/-- Example state: lab "demo" registered with one active deployment. -/
def exStateActive : ManagerState :=
  { repos := [("demo", exRepoRecord)], deployments := [("demo_1", exActiveDep)] }

/-- Example state: lab "demo" registered, its only deployment destroyed. -/
def exStateDestroyed : ManagerState :=
  { repos := [("demo", exRepoRecord)], deployments := [("demo_1", exDestroyedDep)] }

/-- Example collaborator outcomes for a deploy whose IP allocation succeeds
and whose bootstrap then fails. -/
def exDeployEnv : DeployEnv :=
  { checkoutOk := true, checkoutErr := "", netboxSome := true,
    netboxEnabled := true, nodesCsvExists := true, nodeNames := ["r1", "r2"],
    allocResult := [("r1", "10.100.100.1"), ("r2", "10.100.100.2")],
    updateCsvOk := true, bootstrapOk := false,
    bootstrapLogFile := "/root/.labctl/logs/demo_2.log", bootstrapMessage := "",
    bootstrapErr := "Bootstrap failed", timestamp := "20250104_000000",
    deployedAt := "2025-01-04T00:00:00" }

/-- Example external IPAM behavior whose second creation call throws. -/
def exNbEnvFail : NbEnv :=
  { enabled := true, apiOk := true, prefixFound := true,
    availableIps := ["10.100.100.1/24", "10.100.100.2/24"],
    createFails := fun j => j == 1 }

/-- Example external IPAM behavior where every creation call succeeds. -/
def exNbEnvOk : NbEnv :=
  { enabled := true, apiOk := true, prefixFound := true,
    availableIps := ["10.100.100.1/24", "10.100.100.2/24"],
    createFails := fun _ => false }

/-- Example base configuration document (fields list). -/
def exConfigFields : List (String × YVal) :=
  [ ("repos_dir", YVal.s "~/.labctl/repos"),
    ("netbox", YVal.obj
      [ ("enabled", YVal.b true), ("url", YVal.s "https://netbox.example.com"),
        ("token", YVal.s "oldtoken") ]) ]

/-- Example partial update document setting only netbox.token. -/
def exUpdateFields : List (String × YVal) :=
  [("netbox", YVal.obj [("token", YVal.s "X")])]

/-- Example collaborator outcomes for a successful `add_repo`. -/
def exAddEnv : AddEnv :=
  { gitOk := true, gitErr := "", metadataPresent := true,
    metadata := exMetadata, addedAt := "2025-01-01T00:00:00",
    reposDir := "/root/.labctl/repos" }

/-
  Helper lemmas about the association-list dictionary operations.
-/

theorem lookupA_insertA_self {α : Type} (l : List (String × α)) (k : String) (v : α) :
    lookupA (insertA l k v) k = some v := by
  induction l with
  | nil => simp [insertA, lookupA]
  | cons p rest ih =>
      obtain ⟨pk, pv⟩ := p
      by_cases h : pk = k
      · simp [insertA, h, lookupA]
      · simp [insertA, h, lookupA, ih]

theorem lookupA_insertA_ne {α : Type} (l : List (String × α)) (k key : String)
    (v : α) (h : key ≠ k) : lookupA (insertA l k v) key = lookupA l key := by
  induction l with
  | nil => simp [insertA, lookupA, Ne.symm h]
  | cons p rest ih =>
      obtain ⟨pk, pv⟩ := p
      by_cases hp : pk = k
      · subst hp
        simp [insertA, lookupA, Ne.symm h]
      · simp [insertA, hp, lookupA, ih]

theorem lookupA_eraseA_ne {α : Type} (l : List (String × α)) (k key : String)
    (h : key ≠ k) : lookupA (eraseA l k) key = lookupA l key := by
  induction l with
  | nil => simp [eraseA]
  | cons p rest ih =>
      obtain ⟨pk, pv⟩ := p
      by_cases hp : pk = k
      · subst hp
        simp [eraseA, lookupA, Ne.symm h]
      · simp [eraseA, hp, lookupA, ih]

theorem lookupA_insertA_isSome {α : Type} (l : List (String × α)) (k key : String)
    (v : α) (h : (lookupA l key).isSome = true) :
    (lookupA (insertA l k v) key).isSome = true := by
  by_cases hk : key = k
  · subst hk; simp [lookupA_insertA_self]
  · rw [lookupA_insertA_ne l k key v hk]; exact h

theorem mem_insertA_elim {α : Type} {l : List (String × α)} {k : String} {v : α}
    {p : String × α} (h : p ∈ insertA l k v) : p = (k, v) ∨ p ∈ l := by
  induction l with
  | nil => simpa [insertA] using h
  | cons q rest ih =>
      obtain ⟨qk, qv⟩ := q
      by_cases hq : qk = k
      · subst hq
        simp [insertA] at h
        rcases h with h | h
        · exact Or.inl (by simp [h])
        · exact Or.inr (by simp [h])
      · simp [insertA, hq] at h
        rcases h with h | h
        · exact Or.inr (by simp [h])
        · rcases ih h with h2 | h2
          · exact Or.inl h2
          · exact Or.inr (by simp [h2])

theorem mem_modifyA_elim {α : Type} {l : List (String × α)} {k : String}
    {f : α → α} {p : String × α} (h : p ∈ modifyA l k f) :
    p ∈ l ∨ ∃ q, q ∈ l ∧ p = (q.1, f q.2) := by
  induction l with
  | nil => simp [modifyA] at h
  | cons q rest ih =>
      obtain ⟨qk, qv⟩ := q
      by_cases hq : qk = k
      · subst hq
        simp [modifyA] at h
        rcases h with h | h
        · exact Or.inr ⟨(qk, qv), by simp, by simp [h]⟩
        · exact Or.inl (by simp [h])
      · simp [modifyA, hq] at h
        rcases h with h | h
        · exact Or.inl (by simp [h])
        · rcases ih h with h2 | h2
          · exact Or.inl (by simp [h2])
          · obtain ⟨q2, hq2, hp2⟩ := h2
            exact Or.inr ⟨q2, by simp [hq2], hp2⟩

theorem optionTraverse_isSome {α β : Type} (f : α → Option β) :
    ∀ l : List α, (∀ x ∈ l, (f x).isSome = true) →
      (optionTraverse f l).isSome = true := by
  intro l h
  induction l with
  | nil => simp [optionTraverse]
  | cons x xs ih =>
      obtain ⟨y, hy⟩ := Option.isSome_iff_exists.mp (h x (by simp))
      obtain ⟨ys, hys⟩ :=
        Option.isSome_iff_exists.mp (ih (fun z hz => h z (by simp [hz])))
      simp [optionTraverse, hy, hys]

/-- C1: the spec says every route handler reaches the single orchestrator
instance built by the application factory, and that GET /api/repos returns
200 with the repository summaries.  In the code, `create_app` attaches the
orchestrator only as `app.lab_manager`; the repos blueprint's handlers read
the module-level `lab_manager` global, which is never assigned and stays
`None`, so the registered GET /api/repos route raises an AttributeError
(HTTP 500) instead of returning 200 — contradicting the repository's own
integration test `test_list_repos_empty`. -/
theorem c1_get_repos_route_wiring_bug (managerInstance : ManagerState) :
    (create_app managerInstance).appLabManager = some managerInstance ∧
    (create_app managerInstance).routes.contains ("GET", "/api/repos") = true ∧
    handle_get_repos (create_app managerInstance) =
      ReposGetResponse.internalError500
        "AttributeError: NoneType object has no attribute list_repos" :=
  ⟨rfl, by show createAppRoutes.contains ("GET", "/api/repos") = true; decide, rfl⟩

/-- C8: the spec says GET /api/config/settings returns 200 with the four
credential fields masked to "****".  The masking handler exists in
api/settings.py, but `create_app` registers only the repos, labs, tasks and
health blueprints — the settings blueprint is never registered, so the
factory-built application has no /api/config/settings route and the request
yields 404, not 200. -/
theorem c8_settings_route_not_registered (managerInstance : ManagerState)
    (fileConfig : List (String × YVal)) :
    (create_app managerInstance).routes.contains ("GET", "/api/config/settings") = false ∧
    handle_get_settings (create_app managerInstance) fileConfig =
      SettingsGetResponse.notFound404 :=
  ⟨by show createAppRoutes.contains ("GET", "/api/config/settings") = false; decide, rfl⟩

/-- C9 counterexample: with lab "lab1" registered, a successful pull and
lab-metadata.yaml absent afterwards, `update_repo` raises an uncaught
FileNotFoundError instead of returning a structured result, refuting the
claim's "in particular" clause. -/
theorem c9_update_repo_raises_counterexample :
    isStructuredOutcome
      (update_repo
        { repos := [("lab1",
            { path := "/repos/lab1", url := "https://example.com/lab1.git",
              metadata := [], added := "2025-01-01T00:00:00" })],
          deployments := [] }
        "lab1"
        { pullOk := true, pullErr := "", metadataFile := none }).1 = false := rfl

/-- C9 amended: `update_repo` returns a structured success/error result in
every case — lab unregistered, pull failure, or metadata present — except
exactly when the lab is registered, the pull succeeds, and
lab-metadata.yaml is absent after the pull, in which case it raises an
uncaught file-not-found error across its public boundary. -/
theorem c9_update_repo_totality_amended (st : ManagerState) (labId : String)
    (env : UpdateEnv) :
    isStructuredOutcome (update_repo st labId env).1 = false ↔
      ((lookupA st.repos labId).isSome = true ∧ env.pullOk = true ∧
        env.metadataFile = none) := by
  cases h : lookupA st.repos labId with
  | none => simp [update_repo, h, isStructuredOutcome]
  | some repo =>
      cases hp : env.pullOk with
      | false => simp [update_repo, h, hp, isStructuredOutcome]
      | true =>
          cases hm : env.metadataFile with
          | none => simp [update_repo, h, hp, hm, isStructuredOutcome]
          | some m => simp [update_repo, h, hp, hm, isStructuredOutcome]

/-- C6: when any of the three required provisioning inputs is missing under
the repository path, `bootstrap_lab` fails with the error "Missing required
files: <names>" listing exactly the missing names (in the source's fixed
order) and spawns no subprocess. -/
theorem c6_bootstrap_missing_files (labId : String) (files : ClabFiles)
    (proc : BootProc) (deploymentId : String)
    (h : missingFilesList files ≠ []) :
    (bootstrap_lab labId files proc deploymentId).result.ok = false ∧
    (bootstrap_lab labId files proc deploymentId).result.error =
      some ("Missing required files: " ++
        String.intercalate ", " (missingFilesList files)) ∧
    (bootstrap_lab labId files proc deploymentId).subprocessCalls = 0 ∧
    (∀ fname, fname ∈ missingFilesList files ↔
      ((fname = "config.yaml" ∧ files.configYaml = false) ∨
       (fname = "nodes.csv" ∧ files.nodesCsv = false) ∨
       (fname = "connections.csv" ∧ files.connectionsCsv = false))) := by
  have hempty : (missingFilesList files).isEmpty = false := by
    cases he : (missingFilesList files).isEmpty
    · rfl
    · exact absurd (List.isEmpty_iff.mp he) h
  refine ⟨?_, ?_, ?_, ?_⟩
  · simp [bootstrap_lab, hempty]
  · simp [bootstrap_lab, hempty]
  · simp [bootstrap_lab, hempty]
  · intro fname
    obtain ⟨cf, nf, xf⟩ := files
    cases cf <;> cases nf <;> cases xf <;> simp [missingFilesList]

/-- C6 witness: with config.yaml missing, bootstrap fails with the exact
missing-files error and zero subprocess invocations. -/
theorem c6_bootstrap_missing_files_witness :
    missingFilesList ⟨false, true, true⟩ ≠ [] ∧
    (bootstrap_lab "demo" ⟨false, true, true⟩ ⟨5, 0, 0⟩ "demo_1").result.error =
      some ("Missing required files: " ++
        String.intercalate ", " (missingFilesList ⟨false, true, true⟩)) ∧
    (bootstrap_lab "demo" ⟨false, true, true⟩ ⟨5, 0, 0⟩ "demo_1").subprocessCalls = 0 :=
  ⟨by decide,
    (c6_bootstrap_missing_files "demo" ⟨false, true, true⟩ ⟨5, 0, 0⟩ "demo_1"
      (by decide)).2.1,
    (c6_bootstrap_missing_files "demo" ⟨false, true, true⟩ ⟨5, 0, 0⟩ "demo_1"
      (by decide)).2.2.1⟩

/-- C5 counterexample: a bootstrap subprocess that keeps its stdout stream
open for 1000 seconds and exits immediately at stream end runs far past the
claimed 90-second wall-clock ceiling, yet is never killed and reports
success with no timeout — the `for line in process.stdout` loop has no
timeout, so `process.wait(timeout=90)` only bounds the wait after stdout
closes. -/
theorem c5_bootstrap_timeout_counterexample :
    90 < (bootstrap_lab "demo" ⟨true, true, true⟩ ⟨1000, 0, 0⟩ "demo_1").bootstrapRuntime ∧
    (bootstrap_lab "demo" ⟨true, true, true⟩ ⟨1000, 0, 0⟩ "demo_1").killed = false ∧
    (bootstrap_lab "demo" ⟨true, true, true⟩ ⟨1000, 0, 0⟩ "demo_1").result.ok = true ∧
    (bootstrap_lab "demo" ⟨true, true, true⟩ ⟨1000, 0, 0⟩ "demo_1").result.error = none ∧
    (bootstrap_lab "demo" ⟨true, true, true⟩ ⟨1000, 0, 0⟩ "demo_1").result.timeoutField = none := by
  decide

/-- C5 amended: the 90-second bound applies to the wait between the
subprocess closing its output stream and exiting.  Whenever that residual
wait exceeds 90 seconds the executor kills the subprocess and returns
failure with error "Bootstrap timed out" and a timeout: 90 field; the
subprocess may run arbitrarily long while its output stream stays open. -/
theorem c5_bootstrap_timeout_amended (labId : String) (files : ClabFiles)
    (proc : BootProc) (deploymentId : String)
    (hf : missingFilesList files = []) (ht : 90 < proc.exitDelay) :
    (bootstrap_lab labId files proc deploymentId).killed = true ∧
    (bootstrap_lab labId files proc deploymentId).result.ok = false ∧
    (bootstrap_lab labId files proc deploymentId).result.error =
      some "Bootstrap timed out" ∧
    (bootstrap_lab labId files proc deploymentId).result.timeoutField = some 90 ∧
    (bootstrap_lab labId files proc deploymentId).bootstrapRuntime =
      proc.stdoutSeconds + 90 := by
  refine ⟨?_, ?_, ?_, ?_, ?_⟩ <;> simp [bootstrap_lab, hf, ht]

/-- C5 amended witness: a subprocess holding exit for 100 seconds after its
stream closes is killed with the timed-out failure. -/
theorem c5_bootstrap_timeout_amended_witness :
    missingFilesList ⟨true, true, true⟩ = [] ∧ 90 < 100 ∧
    (bootstrap_lab "demo" ⟨true, true, true⟩ ⟨5, 100, 0⟩ "demo_1").killed = true ∧
    (bootstrap_lab "demo" ⟨true, true, true⟩ ⟨5, 100, 0⟩ "demo_1").result.error =
      some "Bootstrap timed out" ∧
    (bootstrap_lab "demo" ⟨true, true, true⟩ ⟨5, 100, 0⟩ "demo_1").result.timeoutField =
      some 90 :=
  ⟨by decide, by decide,
    (c5_bootstrap_timeout_amended "demo" ⟨true, true, true⟩ ⟨5, 100, 0⟩ "demo_1"
      (by decide) (by decide)).1,
    (c5_bootstrap_timeout_amended "demo" ⟨true, true, true⟩ ⟨5, 100, 0⟩ "demo_1"
      (by decide) (by decide)).2.2.1,
    (c5_bootstrap_timeout_amended "demo" ⟨true, true, true⟩ ⟨5, 100, 0⟩ "demo_1"
      (by decide) (by decide)).2.2.2.1⟩

/-- C3: while any Deployment Record of a registered lab has status
"active", `remove_repo` fails with the Conflict-style error naming that
deployment and leaves the whole state document unchanged; once every
deployment of that lab has status "destroyed", the same call succeeds and
deletes exactly that Repository Record, leaving the deployments mapping
untouched. -/
theorem c3_remove_repo_conflict_guard :
    (∀ (st : ManagerState) (labId depId : String) (dep : DepRecord),
      (lookupA st.repos labId).isSome = true →
      (depId, dep) ∈ st.deployments → dep.lab_id = labId → dep.status = "active" →
      (∃ d, remove_repo st labId =
        (OpResult.err ("Cannot remove lab with active deployment: " ++ d), st))) ∧
    (∀ (st : ManagerState) (labId : String),
      (lookupA st.repos labId).isSome = true →
      (∀ p ∈ st.deployments, p.2.lab_id = labId → p.2.status = "destroyed") →
      remove_repo st labId =
        (OpResult.ok ("Lab " ++ labId ++ " removed"),
          { st with repos := eraseA st.repos labId })) := by
  constructor
  · intro st labId depId dep hrepo hmem hlab hstatus
    obtain ⟨r, hr⟩ := Option.isSome_iff_exists.mp hrepo
    have hfind : (st.deployments.find?
        (fun p => p.2.lab_id == labId && p.2.status == "active")).isSome = true := by
      rw [List.find?_isSome]
      exact ⟨(depId, dep), hmem, by simp [hlab, hstatus]⟩
    obtain ⟨q, hq⟩ := Option.isSome_iff_exists.mp hfind
    exact ⟨q.1, by simp [remove_repo, hr, findActiveDep, hq]⟩
  · intro st labId hrepo hall
    obtain ⟨r, hr⟩ := Option.isSome_iff_exists.mp hrepo
    have hfind : st.deployments.find?
        (fun p => p.2.lab_id == labId && p.2.status == "active") = none := by
      rw [List.find?_eq_none]
      intro p hp
      by_cases h : p.2.lab_id = labId
      · have hd := hall p hp h
        simp [h, hd]
      · simp [h]
    simp [remove_repo, hr, findActiveDep, hfind]

/-- C3 witness: with the demo lab's single deployment active, removal
fails with the Conflict error and leaves the state unchanged; with it
destroyed, removal succeeds and erases only the Repository Record. -/
theorem c3_remove_repo_conflict_guard_witness :
    (∃ d, remove_repo exStateActive "demo" =
      (OpResult.err ("Cannot remove lab with active deployment: " ++ d),
        exStateActive)) ∧
    remove_repo exStateDestroyed "demo" =
      (OpResult.ok ("Lab " ++ "demo" ++ " removed"),
        { exStateDestroyed with repos := eraseA exStateDestroyed.repos "demo" }) :=
  ⟨c3_remove_repo_conflict_guard.1 exStateActive "demo" "demo_1" exActiveDep
      (by decide) (by simp [exStateActive]) rfl rfl,
    c3_remove_repo_conflict_guard.2 exStateDestroyed "demo" (by decide)
      (by
        intro p hp hlab
        simp [exStateDestroyed] at hp
        subst hp
        rfl)⟩

/-- C4: when IP allocation succeeded (NetBox present and enabled, nodes.csv
present with a non-empty node list, a non-empty allocation, and a
successful CSV rewrite) and the bootstrap step then fails, `_deploy_lab`
issues a release call for the lab's IPs and returns the failure with the
state document — in particular the deployments mapping — unchanged. -/
theorem c4_deploy_bootstrap_failure_rollback (st : ManagerState)
    (labId : String) (version : Option String) (env : DeployEnv)
    (hrepo : (lookupA st.repos labId).isSome = true)
    (hco : env.checkoutOk = true)
    (hnb : env.netboxSome = true) (hen : env.netboxEnabled = true)
    (hcsv : env.nodesCsvExists = true)
    (hnodes : env.nodeNames ≠ [])
    (halloc : env.allocResult ≠ [])
    (hupd : env.updateCsvOk = true)
    (hboot : env.bootstrapOk = false) :
    deploy_lab st labId version true env =
      (OpResult.err env.bootstrapErr, st, [NbEvent.releaseIps labId]) := by
  obtain ⟨r, hr⟩ := Option.isSome_iff_exists.mp hrepo
  have hnodes2 : env.nodeNames.isEmpty = false := by
    cases he : env.nodeNames.isEmpty
    · rfl
    · exact absurd (List.isEmpty_iff.mp he) hnodes
  have halloc2 : env.allocResult.isEmpty = false := by
    cases he : env.allocResult.isEmpty
    · rfl
    · exact absurd (List.isEmpty_iff.mp he) halloc
  simp [deploy_lab, hr, hco, hnb, hen, hcsv, hnodes2, halloc2, hupd, hboot]

/-- C4 witness: a concrete deploy of the demo lab whose allocation succeeds
and whose bootstrap fails releases the lab's IPs and adds no Deployment
Record. -/
theorem c4_deploy_bootstrap_failure_rollback_witness :
    (lookupA exStateDestroyed.repos "demo").isSome = true ∧
    deploy_lab exStateDestroyed "demo" (some "latest") true exDeployEnv =
      (OpResult.err "Bootstrap failed", exStateDestroyed,
        [NbEvent.releaseIps "demo"]) :=
  ⟨by decide,
    c4_deploy_bootstrap_failure_rollback exStateDestroyed "demo" (some "latest")
      exDeployEnv (by decide) rfl rfl rfl rfl (by decide) (by decide) rfl rfl⟩

theorem allocLoop_firstFail (available : List String) (createFails : Nat → Bool) :
    ∀ (nodes : List String) (i : Nat) (assignments : List (String × String))
      (created : List String) (events : List NbIpEvent) (k : Nat),
      k < nodes.length →
      (∀ j, j < k → createFails (i + j) = false) →
      createFails (i + k) = true →
      allocLoop available createFails nodes i assignments created events =
        ([], (events ++ (List.range k).map
            (fun j => NbIpEvent.create ((available.get? (i + j)).getD ""))) ++
          (created ++ (List.range k).map
            (fun j => (available.get? (i + j)).getD "")).map NbIpEvent.delete) := by
  intro nodes
  induction nodes with
  | nil =>
      intro i assignments created events k hk _ _
      exact absurd hk (by simp)
  | cons node rest ih =>
      intro i assignments created events k hk hpre hfail
      cases k with
      | zero =>
          have h0 : createFails i = true := by simpa using hfail
          simp [allocLoop, h0]
      | succ k2 =>
          have h0 : createFails i = false := by simpa using hpre 0 (Nat.succ_pos k2)
          have hk2 : k2 < rest.length := by simpa using hk
          have hpre2 : ∀ j, j < k2 → createFails (i + 1 + j) = false := by
            intro j hj
            have h := hpre (j + 1) (by omega)
            rwa [show i + (j + 1) = i + 1 + j from by omega] at h
          have hfail2 : createFails (i + 1 + k2) = true := by
            rwa [show i + (k2 + 1) = i + 1 + k2 from by omega] at hfail
          have hstep := ih (i + 1)
            (insertA assignments node (stripMask ((available.get? i).getD "")))
            (created ++ [(available.get? i).getD ""])
            (events ++ [NbIpEvent.create ((available.get? i).getD "")])
            k2 hk2 hpre2 hfail2
          have hB1 : (List.range (k2 + 1)).map
              (fun j => NbIpEvent.create ((available.get? (i + j)).getD "")) =
              NbIpEvent.create ((available.get? i).getD "") ::
                (List.range k2).map
                  (fun j => NbIpEvent.create ((available.get? (i + 1 + j)).getD "")) := by
            rw [List.range_succ_eq_map, List.map_cons, List.map_map]
            refine congrArg₂ List.cons (by simp) (List.map_congr_left ?_)
            intro j _
            simp only [Function.comp_apply, Nat.succ_eq_add_one]
            rw [show i + (j + 1) = i + 1 + j from by omega]
          have hB2 : (List.range (k2 + 1)).map
              (fun j => (available.get? (i + j)).getD "") =
              ((available.get? i).getD "") ::
                (List.range k2).map (fun j => (available.get? (i + 1 + j)).getD "") := by
            rw [List.range_succ_eq_map, List.map_cons, List.map_map]
            refine congrArg₂ List.cons (by simp) (List.map_congr_left ?_)
            intro j _
            simp only [Function.comp_apply, Nat.succ_eq_add_one]
            rw [show i + (j + 1) = i + 1 + j from by omega]
          simp only [allocLoop, h0, Bool.false_eq_true, if_false]
          rw [hstep, hB1, hB2]
          simp [List.append_assoc]

theorem allocLoop_lookup_notMem (available : List String) (createFails : Nat → Bool) :
    ∀ (nodes : List String) (i : Nat) (assignments : List (String × String))
      (created : List String) (events : List NbIpEvent),
      (∀ j, j < nodes.length → createFails (i + j) = false) →
      ∀ nm, nm ∉ nodes →
        lookupA (allocLoop available createFails nodes i assignments created events).1 nm =
          lookupA assignments nm := by
  intro nodes
  induction nodes with
  | nil => intro i assignments created events _ nm _; simp [allocLoop]
  | cons node rest ih =>
      intro i assignments created events hpre nm hnm
      have h0 : createFails i = false := by simpa using hpre 0 (by simp)
      have hne : nm ≠ node := fun he => hnm (he ▸ List.mem_cons_self node rest)
      have hnm2 : nm ∉ rest := fun h => hnm (List.mem_cons_of_mem _ h)
      have hpre2 : ∀ j, j < rest.length → createFails (i + 1 + j) = false := by
        intro j hj
        have h := hpre (j + 1) (by simpa using Nat.succ_lt_succ hj)
        rwa [show i + (j + 1) = i + 1 + j from by omega] at h
      simp only [allocLoop, h0, Bool.false_eq_true, if_false]
      rw [ih (i + 1) _ _ _ hpre2 nm hnm2, lookupA_insertA_ne _ _ _ _ hne]

theorem allocLoop_lookup_mem (available : List String) (createFails : Nat → Bool) :
    ∀ (nodes : List String) (i : Nat) (assignments : List (String × String))
      (created : List String) (events : List NbIpEvent),
      (∀ j, j < nodes.length → createFails (i + j) = false) →
      ∀ nm ∈ nodes, ∃ jn, jn < nodes.length ∧
        lookupA (allocLoop available createFails nodes i assignments created events).1 nm =
          some (stripMask ((available.get? (i + jn)).getD "")) := by
  intro nodes
  induction nodes with
  | nil => intro i assignments created events _ nm hm; exact absurd hm (by simp)
  | cons node rest ih =>
      intro i assignments created events hpre nm hmem
      have h0 : createFails i = false := by simpa using hpre 0 (by simp)
      have hpre2 : ∀ j, j < rest.length → createFails (i + 1 + j) = false := by
        intro j hj
        have h := hpre (j + 1) (by simpa using Nat.succ_lt_succ hj)
        rwa [show i + (j + 1) = i + 1 + j from by omega] at h
      by_cases hr : nm ∈ rest
      · obtain ⟨jn, hjn, hl⟩ := ih (i + 1)
          (insertA assignments node (stripMask ((available.get? i).getD "")))
          (created ++ [(available.get? i).getD ""])
          (events ++ [NbIpEvent.create ((available.get? i).getD "")])
          hpre2 nm hr
        refine ⟨jn + 1, by simpa using Nat.succ_lt_succ hjn, ?_⟩
        simp only [allocLoop, h0, Bool.false_eq_true, if_false]
        rw [show i + (jn + 1) = i + 1 + jn from by omega]
        exact hl
      · have hnode : nm = node := by
          rcases List.mem_cons.mp hmem with h | h
          · exact h
          · exact absurd h hr
        subst hnode
        refine ⟨0, by simp, ?_⟩
        simp only [allocLoop, h0, Bool.false_eq_true, if_false]
        rw [allocLoop_lookup_notMem available createFails rest (i + 1) _ _ _ hpre2 nm hr,
          lookupA_insertA_self]
        simp

/-- C2: the Allocate IPs operation is all-or-nothing.  (i) With fewer
available addresses than nodes it returns the empty mapping having issued
zero creation calls.  (ii) If the creation call at index k is the first to
throw, the call's event trace is exactly the k earlier creations followed
by a deletion of each of those same k records, and the returned mapping is
empty.  (iii) On full success every requested node is mapped to the bare
form (mask stripped) of one of the pool's available addresses. -/
theorem c2_allocate_ips_all_or_nothing :
    (∀ (env : NbEnv) (nodes : List String),
      env.availableIps.length < nodes.length →
      allocate_ips env nodes = ([], [])) ∧
    (∀ (env : NbEnv) (nodes : List String) (k : Nat),
      env.enabled = true → env.apiOk = true → env.prefixFound = true →
      nodes.length ≤ env.availableIps.length → k < nodes.length →
      (∀ j, j < k → env.createFails j = false) → env.createFails k = true →
      allocate_ips env nodes =
        ([], (List.range k).map
            (fun j => NbIpEvent.create ((env.availableIps.get? j).getD "")) ++
          ((List.range k).map
            (fun j => (env.availableIps.get? j).getD "")).map NbIpEvent.delete)) ∧
    (∀ (env : NbEnv) (nodes : List String),
      env.enabled = true → env.apiOk = true → env.prefixFound = true →
      nodes.length ≤ env.availableIps.length →
      (∀ j, j < nodes.length → env.createFails j = false) →
      ∀ nm ∈ nodes, ∃ a ∈ env.availableIps,
        lookupA (allocate_ips env nodes).1 nm = some (stripMask a)) := by
  refine ⟨?_, ?_, ?_⟩
  · intro env nodes h
    cases he : env.enabled <;> cases ha : env.apiOk <;>
      cases hp : env.prefixFound <;> simp [allocate_ips, he, ha, hp, h]
  · intro env nodes k he ha hp hlen hk hpre hfail
    have hguard : ¬ env.availableIps.length < nodes.length := Nat.not_lt.mpr hlen
    have hpre0 : ∀ j, j < k → env.createFails (0 + j) = false := by
      intro j hj
      simpa using hpre j hj
    have hfail0 : env.createFails (0 + k) = true := by simpa using hfail
    have hloop := allocLoop_firstFail env.availableIps env.createFails nodes 0
      [] [] [] k hk hpre0 hfail0
    simp only [Nat.zero_add, List.nil_append] at hloop
    simp [allocate_ips, he, ha, hp, hguard, hloop]
  · intro env nodes he ha hp hlen hpre nm hmem
    have hguard : ¬ env.availableIps.length < nodes.length := Nat.not_lt.mpr hlen
    have hpre0 : ∀ j, j < nodes.length → env.createFails (0 + j) = false := by
      intro j hj
      simpa using hpre j hj
    obtain ⟨jn, hjn, hl⟩ := allocLoop_lookup_mem env.availableIps env.createFails
      nodes 0 [] [] [] hpre0 nm hmem
    have hj2 : jn < env.availableIps.length := lt_of_lt_of_le hjn hlen
    have hget : env.availableIps.get? jn = some (env.availableIps.get ⟨jn, hj2⟩) :=
      List.get?_eq_get hj2
    refine ⟨env.availableIps.get ⟨jn, hj2⟩, List.get_mem _ _ _, ?_⟩
    have hl2 : lookupA
        (allocLoop env.availableIps env.createFails nodes 0 [] [] []).1 nm =
        some (stripMask (env.availableIps.get ⟨jn, hj2⟩)) := by
      simp only [Nat.zero_add] at hl
      rw [hget] at hl
      simpa using hl
    rw [show allocate_ips env nodes =
        allocLoop env.availableIps env.createFails nodes 0 [] [] [] from by
      simp [allocate_ips, he, ha, hp, hguard]]
    exact hl2

/-- C2 witness: with two available addresses, (i) three nodes fail empty
with no creations; (ii) a throw on the second creation yields exactly one
creation followed by its deletion and an empty mapping; (iii) full success
maps node "a" to a bare address from the pool. -/
theorem c2_allocate_ips_all_or_nothing_witness :
    allocate_ips exNbEnvFail ["a", "b", "c"] = ([], []) ∧
    allocate_ips exNbEnvFail ["a", "b"] =
      ([], [NbIpEvent.create "10.100.100.1/24", NbIpEvent.delete "10.100.100.1/24"]) ∧
    (∃ a ∈ exNbEnvOk.availableIps,
      lookupA (allocate_ips exNbEnvOk ["a", "b"]).1 "a" = some (stripMask a)) :=
  ⟨c2_allocate_ips_all_or_nothing.1 exNbEnvFail ["a", "b", "c"] (by decide),
    c2_allocate_ips_all_or_nothing.2.1 exNbEnvFail ["a", "b"] 1 rfl rfl rfl
      (by decide) (by decide) (by decide) (by decide),
    c2_allocate_ips_all_or_nothing.2.2 exNbEnvOk ["a", "b"] rfl rfl rfl
      (by decide) (by decide) "a" (by simp)⟩

theorem deepUpdateF_cons_eq (b : List (String × YVal)) (pk : String) (pv : YVal)
    (rest : List (String × YVal)) :
    deepUpdateF b ((pk, pv) :: rest) =
      deepUpdateF (insertA b pk (mergedValue (lookupA b pk) pv)) rest := by
  cases pv with
  | obj uo =>
      cases hb : lookupA b pk with
      | none => simp [deepUpdateF, hb, mergedValue]
      | some w => cases w <;> simp [deepUpdateF, hb, mergedValue]
  | s v => simp [deepUpdateF, mergedValue]
  | b v => simp [deepUpdateF, mergedValue]
  | n v => simp [deepUpdateF, mergedValue]
  | arr items => simp [deepUpdateF, mergedValue]

theorem deepUpdateF_lookup_notMem :
    ∀ (u b : List (String × YVal)) (k : String), k ∉ keysOf u →
      lookupA (deepUpdateF b u) k = lookupA b k := by
  intro u
  induction u with
  | nil => intro b k _; simp [deepUpdateF]
  | cons p rest ih =>
      intro b k hk
      obtain ⟨pk, pv⟩ := p
      rw [show keysOf ((pk, pv) :: rest) = pk :: keysOf rest from rfl] at hk
      simp only [List.mem_cons, not_or] at hk
      obtain ⟨hk1, hk2⟩ := hk
      rw [deepUpdateF_cons_eq, ih _ _ hk2, lookupA_insertA_ne _ _ _ _ hk1]

theorem deepUpdateF_lookup_mem :
    ∀ (u b : List (String × YVal)) (k : String) (v : YVal),
      (keysOf u).Nodup → (k, v) ∈ u →
      lookupA (deepUpdateF b u) k = some (mergedValue (lookupA b k) v) := by
  intro u
  induction u with
  | nil => intro b k v _ hm; exact absurd hm (by simp)
  | cons p rest ih =>
      intro b k v hnd hm
      obtain ⟨pk, pv⟩ := p
      rw [show keysOf ((pk, pv) :: rest) = pk :: keysOf rest from rfl,
        List.nodup_cons] at hnd
      obtain ⟨hpk, hndrest⟩ := hnd
      rcases List.mem_cons.mp hm with he | hm2
      · obtain ⟨hk, hv⟩ := Prod.mk.inj he
        subst hk
        subst hv
        rw [deepUpdateF_cons_eq, deepUpdateF_lookup_notMem rest _ k hpk,
          lookupA_insertA_self]
      · have hkmem : k ∈ keysOf rest := by
          have := List.mem_map_of_mem (fun q => q.1) hm2
          simpa [keysOf] using this
        have hkne : k ≠ pk := fun he2 => hpk (he2 ▸ hkmem)
        rw [deepUpdateF_cons_eq, ih _ _ _ hndrest hm2,
          lookupA_insertA_ne _ _ _ _ hkne]

/-- C7: `update_config` deep-merges the partial document into the loaded
one.  (i) Every key absent from the partial document keeps its prior value.
(ii) Every key of the partial document (keys being unique, as in any parsed
YAML mapping) ends up holding its merged value: nested mappings merge
recursively key-by-key, any other value replaces wholesale.  (iii) The
merged document is written back, so a subsequent load returns it. -/
theorem c7_update_config_deep_merge :
    (∀ (b u : List (String × YVal)) (k : String), k ∉ keysOf u →
        lookupA (deepUpdateF b u) k = lookupA b k) ∧
    (∀ (b u : List (String × YVal)) (k : String) (v : YVal),
        (keysOf u).Nodup → (k, v) ∈ u →
        lookupA (deepUpdateF b u) k = some (mergedValue (lookupA b k) v)) ∧
    (∀ (updates bf : List (String × YVal)) (fs : ConfigFile),
        fs.contents = some (YVal.obj bf) →
        update_config updates fs =
          some (YVal.obj (deepUpdateF bf updates),
            { contents := some (YVal.obj (deepUpdateF bf updates)) }) ∧
        (load_config
            { contents := some (YVal.obj (deepUpdateF bf updates)) }).1 =
          YVal.obj (deepUpdateF bf updates)) := by
  refine ⟨fun b u k h => deepUpdateF_lookup_notMem u b k h,
    fun b u k v hnd hm => deepUpdateF_lookup_mem u b k v hnd hm, ?_⟩
  intro updates bf fs h
  constructor
  · simp [update_config, load_config, h]
  · simp [load_config]

/-- C7 witness: merging the partial document netbox.token := "X" into a
concrete configuration leaves repos_dir untouched, merges the nested netbox
mapping, and round-trips through the file. -/
theorem c7_update_config_deep_merge_witness :
    ("repos_dir" ∉ keysOf exUpdateFields) ∧
    lookupA (deepUpdateF exConfigFields exUpdateFields) "repos_dir" =
      lookupA exConfigFields "repos_dir" ∧
    (keysOf exUpdateFields).Nodup ∧
    lookupA (deepUpdateF exConfigFields exUpdateFields) "netbox" =
      some (mergedValue (lookupA exConfigFields "netbox")
        (YVal.obj [("token", YVal.s "X")])) ∧
    update_config exUpdateFields { contents := some (YVal.obj exConfigFields) } =
      some (YVal.obj (deepUpdateF exConfigFields exUpdateFields),
        { contents := some (YVal.obj (deepUpdateF exConfigFields exUpdateFields)) }) :=
  ⟨by decide,
    c7_update_config_deep_merge.1 exConfigFields exUpdateFields "repos_dir" (by decide),
    by decide,
    c7_update_config_deep_merge.2.1 exConfigFields exUpdateFields "netbox"
      (YVal.obj [("token", YVal.s "X")]) (by decide) (by simp [exUpdateFields]),
    (c7_update_config_deep_merge.2.2 exUpdateFields exConfigFields
      { contents := some (YVal.obj exConfigFields) } rfl).1⟩

theorem ActiveOk_insert_repos (st : ManagerState) (k : String) (r : RepoRecord)
    (h : ActiveOk st) : ActiveOk { st with repos := insertA st.repos k r } := by
  intro p hp hact
  exact lookupA_insertA_isSome _ _ _ _ (h p hp hact)

theorem add_repo_preserves_ActiveOk (st : ManagerState) (repoUrl : String)
    (nm : Option String) (env : AddEnv) (h : ActiveOk st) :
    ActiveOk (add_repo st repoUrl nm env).2 := by
  cases hg : env.gitOk with
  | false => simpa [add_repo, hg] using h
  | true =>
      cases hm : env.metadataPresent with
      | false => simpa [add_repo, hm, hg] using h
      | true =>
          simp only [add_repo, hg, hm, Bool.not_true, Bool.false_eq_true, if_false]
          exact ActiveOk_insert_repos st _ _ h

theorem update_repo_preserves_ActiveOk (st : ManagerState) (labId : String)
    (env : UpdateEnv) (h : ActiveOk st) : ActiveOk (update_repo st labId env).2 := by
  cases hl : lookupA st.repos labId with
  | none => simpa [update_repo, hl] using h
  | some repo =>
      cases hp : env.pullOk with
      | false => simpa [update_repo, hl, hp] using h
      | true =>
          cases hm : env.metadataFile with
          | none => simpa [update_repo, hl, hp, hm] using h
          | some m =>
              simp only [update_repo, hl, hp, hm, Bool.not_true,
                Bool.false_eq_true, if_false]
              exact ActiveOk_insert_repos st _ _ h

theorem remove_repo_preserves_ActiveOk (st : ManagerState) (labId : String)
    (h : ActiveOk st) : ActiveOk (remove_repo st labId).2 := by
  cases hl : (lookupA st.repos labId).isNone with
  | true => simpa [remove_repo, hl] using h
  | false =>
      cases hf : findActiveDep st.deployments labId with
      | some depId => simpa [remove_repo, hl, hf] using h
      | none =>
          simp only [remove_repo, hl, hf, Bool.false_eq_true, if_false]
          intro p hp hact
          have hf2 : st.deployments.find?
              (fun q => q.2.lab_id == labId && q.2.status == "active") = none := by
            unfold findActiveDep at hf
            exact Option.map_eq_none'.mp hf
          have hnp := List.find?_eq_none.mp hf2 p hp
          have hne : p.2.lab_id ≠ labId := by
            intro he
            simp [he, hact] at hnp
          have := h p hp hact
          simpa [lookupA_eraseA_ne st.repos labId p.2.lab_id hne] using this

theorem deploy_lab_state_shape (st : ManagerState) (labId : String)
    (version : Option String) (allocateIps : Bool) (env : DeployEnv) :
    (deploy_lab st labId version allocateIps env).2.1 = st ∨
    ((lookupA st.repos labId).isSome = true ∧
      ∃ depId rec, rec.lab_id = labId ∧
        (deploy_lab st labId version allocateIps env).2.1 =
          { st with deployments := insertA st.deployments depId rec }) := by
  cases hl : (lookupA st.repos labId).isNone with
  | true => simp [deploy_lab, hl]
  | false =>
      have hsome : (lookupA st.repos labId).isSome = true := by
        cases ho : lookupA st.repos labId
        · rw [ho] at hl; simp at hl
        · rfl
      cases hc : versionRequested version && !env.checkoutOk with
      | true => simp [deploy_lab, hl, hc]
      | false =>
          cases hn : (allocateIps && env.netboxSome && env.netboxEnabled) &&
              !env.nodesCsvExists with
          | true => simp [deploy_lab, hl, hc, hn]
          | false =>
              cases ha : (allocateIps && env.netboxSome && env.netboxEnabled &&
                  !env.nodeNames.isEmpty) && env.allocResult.isEmpty with
              | true => simp [deploy_lab, hl, hc, hn, ha]
              | false =>
                  cases hu : (allocateIps && env.netboxSome && env.netboxEnabled &&
                      !env.nodeNames.isEmpty) && !env.updateCsvOk with
                  | true => simp [deploy_lab, hl, hc, hn, ha, hu]
                  | false =>
                      cases hb : env.bootstrapOk with
                      | false => simp [deploy_lab, hl, hc, hn, ha, hu, hb]
                      | true =>
                          right
                          refine ⟨hsome, labId ++ "_" ++ env.timestamp, ?_⟩
                          simp [deploy_lab, hl, hc, hn, ha, hu, hb]
                          exact ⟨_, rfl, rfl⟩

theorem deploy_lab_preserves_ActiveOk (st : ManagerState) (labId : String)
    (version : Option String) (allocateIps : Bool) (env : DeployEnv)
    (h : ActiveOk st) : ActiveOk (deploy_lab st labId version allocateIps env).2.1 := by
  rcases deploy_lab_state_shape st labId version allocateIps env with
    he | ⟨hsome, depId, rec, hlab, he⟩
  · rw [he]; exact h
  · rw [he]
    intro p hp _hact
    rcases mem_insertA_elim hp with hpe | hp2
    · subst hpe
      simpa [hlab] using hsome
    · exact h p hp2 _hact

theorem destroy_lab_state_shape (st : ManagerState) (labId : String)
    (env : DestroyEnv) :
    (destroy_lab st labId env).2 = st ∨
    ∃ depId, (destroy_lab st labId env).2 =
      { st with deployments :=
          modifyA st.deployments depId (markDestroyedAt env.destroyedAt) } := by
  cases hf : findActiveDep st.deployments labId with
  | none => simp [destroy_lab, hf]
  | some depId =>
      cases hl : lookupA st.repos labId with
      | none => simp [destroy_lab, hf, hl]
      | some r =>
          cases ht : env.teardownOk with
          | false => simp [destroy_lab, hf, hl, ht]
          | true =>
              right
              exact ⟨depId, by simp [destroy_lab, hf, hl, ht]⟩

theorem destroy_lab_preserves_ActiveOk (st : ManagerState) (labId : String)
    (env : DestroyEnv) (h : ActiveOk st) : ActiveOk (destroy_lab st labId env).2 := by
  rcases destroy_lab_state_shape st labId env with he | ⟨depId, he⟩
  · rw [he]; exact h
  · rw [he]
    intro p hp hact
    rcases mem_modifyA_elim hp with hp2 | ⟨q, hq, hpe⟩
    · exact h p hp2 hact
    · subst hpe
      simp [markDestroyedAt] at hact

theorem get_status_isSome_of_ActiveOk (st : ManagerState) (h : ActiveOk st) :
    (get_status st).isSome = true := by
  unfold get_status
  rw [Option.isSome_map']
  apply optionTraverse_isSome
  intro p hp
  have hmem : p ∈ st.deployments := List.mem_of_mem_filter hp
  have hact : p.2.status = "active" := by
    have := List.of_mem_filter hp
    simpa using this
  have hsome := h p hmem hact
  simp [statusEntry, Option.isSome_map', hsome]

/-- C10: in every state reachable from the empty initial state document via
the orchestrator's operations, every Deployment Record with status "active"
has a lab id that is a key of the repos mapping, and consequently the Get
status projection (which indexes repos by each active deployment's lab id)
never fails. -/
theorem c10_active_deployments_registered (st : ManagerState)
    (h : Reachable st) : ActiveOk st ∧ (get_status st).isSome = true := by
  have hA : ActiveOk st := by
    induction h with
    | init => intro p hp _; exact absurd hp (by simp [initialState])
    | @step st2 st3 hr hs ih =>
        cases hs with
        | add repoUrl nm env => exact add_repo_preserves_ActiveOk st2 repoUrl nm env ih
        | update labId env => exact update_repo_preserves_ActiveOk st2 labId env ih
        | remove labId => exact remove_repo_preserves_ActiveOk st2 labId ih
        | deploy labId version allocateIps env =>
            exact deploy_lab_preserves_ActiveOk st2 labId version allocateIps env ih
        | destroy labId env => exact destroy_lab_preserves_ActiveOk st2 labId env ih
  exact ⟨hA, get_status_isSome_of_ActiveOk st hA⟩

/-- C10 witness: the invariant and the totality of the status projection
hold at a concrete reachable state, the empty initial document followed by
one successful repository registration. -/
theorem c10_active_deployments_registered_witness :
    ActiveOk (add_repo initialState "https://example.com/demo.git" (some "demo") exAddEnv).2 ∧
    (get_status (add_repo initialState "https://example.com/demo.git" (some "demo") exAddEnv).2).isSome = true :=
  c10_active_deployments_registered _
    (Reachable.step Reachable.init
      (Step.add initialState "https://example.com/demo.git" (some "demo") exAddEnv))

/-- Supporting fact for the settings endpoint: `_mask_passwords` itself does
implement the spec's masking rule — with all four credentials present and
non-empty it replaces exactly clab_tools_password, the two remote
credentials and the netbox token with "****" and returns every other
top-level field verbatim.  Only the route registration is missing. -/
theorem mask_passwords_masks_credentials
    (c creds nb : List (String × YVal)) (p1 p2 p3 tok : String)
    (h1 : lookupA c "clab_tools_password" = some (YVal.s p1)) (hp1 : p1 ≠ "")
    (h2 : lookupA c "remote_credentials" = some (YVal.obj creds))
    (h3 : lookupA creds "ssh_password" = some (YVal.s p2)) (hp2 : p2 ≠ "")
    (h4 : lookupA creds "sudo_password" = some (YVal.s p3)) (hp3 : p3 ≠ "")
    (h5 : lookupA c "netbox" = some (YVal.obj nb))
    (h6 : lookupA nb "token" = some (YVal.s tok)) (hp4 : tok ≠ "") :
    lookupA (mask_passwords c) "clab_tools_password" = some (YVal.s "****") ∧
    lookupA (mask_passwords c) "remote_credentials" =
      some (YVal.obj (insertA (insertA creds "ssh_password" (YVal.s "****"))
        "sudo_password" (YVal.s "****"))) ∧
    lookupA (mask_passwords c) "netbox" =
      some (YVal.obj (insertA nb "token" (YVal.s "****"))) ∧
    (∀ k, k ≠ "clab_tools_password" → k ≠ "remote_credentials" → k ≠ "netbox" →
      lookupA (mask_passwords c) k = lookupA c k) := by
  have e1 : maskField c "clab_tools_password" =
      insertA c "clab_tools_password" (YVal.s "****") := by
    simp [maskField, h1, yTruthy, hp1]
  have l1 : lookupA (maskField c "clab_tools_password") "remote_credentials" =
      some (YVal.obj creds) := by
    rw [e1, lookupA_insertA_ne _ _ _ _ (by decide)]
    exact h2
  have ecreds1 : maskField creds "ssh_password" =
      insertA creds "ssh_password" (YVal.s "****") := by
    simp [maskField, h3, yTruthy, hp2]
  have lsudo : lookupA (maskField creds "ssh_password") "sudo_password" =
      some (YVal.s p3) := by
    rw [ecreds1, lookupA_insertA_ne _ _ _ _ (by decide)]
    exact h4
  have ecreds2 : maskField (maskField creds "ssh_password") "sudo_password" =
      insertA (insertA creds "ssh_password" (YVal.s "****")) "sudo_password"
        (YVal.s "****") := by
    rw [ecreds1] at lsudo
    rw [ecreds1]
    simp [maskField, lsudo, yTruthy, hp3]
  have e2 : maskRemoteCreds (maskField c "clab_tools_password") =
      insertA (maskField c "clab_tools_password") "remote_credentials"
        (YVal.obj (insertA (insertA creds "ssh_password" (YVal.s "****"))
          "sudo_password" (YVal.s "****"))) := by
    simp [maskRemoteCreds, l1, ecreds2]
  have l2 : lookupA (maskRemoteCreds (maskField c "clab_tools_password")) "netbox" =
      some (YVal.obj nb) := by
    rw [e2, lookupA_insertA_ne _ _ _ _ (by decide), e1,
      lookupA_insertA_ne _ _ _ _ (by decide)]
    exact h5
  have e3 : mask_passwords c =
      insertA (maskRemoteCreds (maskField c "clab_tools_password")) "netbox"
        (YVal.obj (insertA nb "token" (YVal.s "****"))) := by
    simp [mask_passwords, maskNetboxToken, l2, h6, yTruthy, hp4]
  refine ⟨?_, ?_, ?_, ?_⟩
  · rw [e3, lookupA_insertA_ne _ _ _ _ (by decide), e2,
      lookupA_insertA_ne _ _ _ _ (by decide), e1, lookupA_insertA_self]
  · rw [e3, lookupA_insertA_ne _ _ _ _ (by decide), e2, lookupA_insertA_self]
  · rw [e3, lookupA_insertA_self]
  · intro k hk1 hk2 hk3
    rw [e3, lookupA_insertA_ne _ _ _ _ hk3, e2, lookupA_insertA_ne _ _ _ _ hk2,
      e1, lookupA_insertA_ne _ _ _ _ hk1]
